import Mathlib

/-!
Verification of the ShapesCalculator service (backend/shapes_models.py,
backend/application_infastructructure.py).

Numeric values flowing through the service are Python floats.  We embed them
as an idealized IEEE-style value type `FVal`: a finite real number, one of the
two infinities, or NaN.  Finite arithmetic is idealized over the reals (no
rounding, `math.pi` becomes `Real.pi`); comparison and the propagation of
infinities and NaN follow IEEE-754 semantics, which is what the Python
expressions `v <= 0`, `x * y`, `x + y`, `x ** 2` implement.  One error path
survives the idealization and is modelled separately: CPython float `**`
raises OverflowError when the square of a finite argument exceeds the double
range (`*` and `+` overflow silently to an infinity instead), so the circle
handler, whose body squares the radius, can reach its `except` branch and
answer 500 on an in-range validated input.  `FVal.sqChecked`,
`circle_area_checked`, `calculate_circle_checked` and `dispatchChecked`
refine the idealized definitions with that path.

The request pipeline is embedded as it executes at runtime: FastAPI first
builds the pydantic `Shapes` model from the request body, running the
`value_must_be_positive` field validator on each of the five optional fields
in declaration order and collecting every failing field into a 422
validation-error response; only if the model validates does the route handler
body (`calculate_circle`, `calculate_rectangle`, `calculate_triangle`) run,
which checks presence of the required fields (400 on absence) and otherwise
assembles the result dictionary from the `ShapesCalculator` methods.
-/

namespace ShapesService

/-- A Python float value: a finite real (idealized, no rounding), an
infinity, or NaN. -/
inductive FVal where
  | finite (x : ℝ)
  | posInf
  | negInf
  | nan

/-- The Python comparison `v <= 0` on a float `v` (IEEE semantics: NaN
compares false, `-inf <= 0` is true, `+inf <= 0` is false). -/
def FVal.leZero : FVal → Prop
  | .finite x => x ≤ 0
  | .posInf => False
  | .negInf => True
  | .nan => False

noncomputable instance : DecidablePred FVal.leZero := fun v =>
  match v with
  | .finite x => inferInstanceAs (Decidable (x ≤ 0))
  | .posInf => inferInstanceAs (Decidable False)
  | .negInf => inferInstanceAs (Decidable True)
  | .nan => inferInstanceAs (Decidable False)

/-- IEEE float multiplication, with finite products idealized as exact. -/
noncomputable def FVal.mul : FVal → FVal → FVal
  | .nan, _ => .nan
  | _, .nan => .nan
  | .finite x, .finite y => .finite (x * y)
  | .finite x, .posInf => if 0 < x then .posInf else if x < 0 then .negInf else .nan
  | .finite x, .negInf => if 0 < x then .negInf else if x < 0 then .posInf else .nan
  | .posInf, .finite y => if 0 < y then .posInf else if y < 0 then .negInf else .nan
  | .negInf, .finite y => if 0 < y then .negInf else if y < 0 then .posInf else .nan
  | .posInf, .posInf => .posInf
  | .posInf, .negInf => .negInf
  | .negInf, .posInf => .negInf
  | .negInf, .negInf => .posInf

/-- IEEE float addition, with finite sums idealized as exact. -/
noncomputable def FVal.add : FVal → FVal → FVal
  | .nan, _ => .nan
  | _, .nan => .nan
  | .finite x, .finite y => .finite (x + y)
  | .finite _, .posInf => .posInf
  | .finite _, .negInf => .negInf
  | .posInf, .finite _ => .posInf
  | .negInf, .finite _ => .negInf
  | .posInf, .posInf => .posInf
  | .posInf, .negInf => .nan
  | .negInf, .posInf => .nan
  | .negInf, .negInf => .negInf

/-- `math.pi` idealized as the real number pi. -/
noncomputable def FVal.pi : FVal := .finite Real.pi

/-- The Python expression `r ** 2` on a float, idealized as total exact
squaring (`(-inf) ** 2 = inf`, `nan ** 2 = nan`, finite values squared
exactly).  This is the tolerance-qualified idealization the spec states the
formulas over; it does NOT track the one exception float `**` can raise:
CPython raises OverflowError when the square of a finite argument overflows
the double range.  `FVal.sqChecked` below refines this definition with that
error path. -/
noncomputable def FVal.sq (r : FVal) : FVal := r.mul r

/-- The `ShapesCalculator` mixin of `Routes` (shapes_models.py).  The class
body declares no attributes; the instance attributes it can see come from the
`Routes` object it is mixed into (`title`, `description`, `version`).  None
of the geometry methods read or write any of them. -/
structure ShapesCalculator where
  title : String := ""
  description : String := ""
  version : String := "1.0.0"

/-- `circle_area(self, radius) = math.pi * (radius ** 2)`. -/
noncomputable def ShapesCalculator.circle_area (_self : ShapesCalculator)
    (radius : FVal) : FVal :=
  FVal.pi.mul radius.sq

/-- `circle_circumference(self, radius) = 2 * math.pi * radius`
(left-associated, as in Python). -/
noncomputable def ShapesCalculator.circle_circumference
    (_self : ShapesCalculator) (radius : FVal) : FVal :=
  ((FVal.finite 2).mul FVal.pi).mul radius

/-- `rectangle_area(self, length, width) = length * width`. -/
noncomputable def ShapesCalculator.rectangle_area (_self : ShapesCalculator)
    (length width : FVal) : FVal :=
  length.mul width

/-- `rectangle_perimeter(self, length, width) = 2 * (length + width)`. -/
noncomputable def ShapesCalculator.rectangle_perimeter
    (_self : ShapesCalculator) (length width : FVal) : FVal :=
  (FVal.finite 2).mul (length.add width)

/-- `triangle_area(self, height, base) = (1/2) * height * base`.  Note the
source parameter order is `(height, base)`; the handler passes both by
keyword. -/
noncomputable def ShapesCalculator.triangle_area (_self : ShapesCalculator)
    (height base : FVal) : FVal :=
  ((FVal.finite (1/2)).mul height).mul base

/-- The pydantic request model: five optional float fields. -/
structure Shapes where
  radius : Option FVal := none
  base : Option FVal := none
  height : Option FVal := none
  length : Option FVal := none
  width : Option FVal := none

/-- The `value_must_be_positive` field validator:
`if v is not None and v <= 0: raise ValueError(...)`, else return `v`. -/
noncomputable def value_must_be_positive (v : Option FVal) :
    Except String (Option FVal) :=
  match v with
  | some x =>
      if x.leZero then .error "The value you entered must be positive"
      else .ok (some x)
  | none => .ok none

/-- The contribution of one field to the pydantic validation-error list:
the field name when its validator raises, nothing otherwise. -/
noncomputable def checkField (name : String) (v : Option FVal) : List String :=
  match value_must_be_positive v with
  | .error _ => [name]
  | .ok _ => []

/-- The fields of a request, with their names, in pydantic declaration
order. -/
def Shapes.fields (s : Shapes) : List (String × Option FVal) :=
  [("radius", s.radius), ("base", s.base), ("height", s.height),
   ("length", s.length), ("width", s.width)]

/-- The names of the fields rejected by model validation, in declaration
order (pydantic collects every failing field into one 422 response). -/
noncomputable def Shapes.validationErrors (s : Shapes) : List String :=
  checkField "radius" s.radius ++ checkField "base" s.base ++
    checkField "height" s.height ++ checkField "length" s.length ++
    checkField "width" s.width

/-- The result dictionary of a successful calculation: a key is present
(`some`) exactly when the handler put it into the dict. -/
structure ShapeResult where
  area : Option FVal := none
  circumference : Option FVal := none
  perimeter : Option FVal := none

/-- The observable outcome of a POST to a shape endpoint: a pydantic 422
validation error listing the rejected fields, a 400 `HTTPException` with its
detail string, a 500 from the handler `except` branch (present in the source;
the purely arithmetic handler bodies never raise, so no execution path of
this model produces it), or a 200 with the result dictionary. -/
inductive Resp where
  | unprocessable (fields : List String)
  | badRequest (detail : String)
  | serverError (detail : String)
  | ok (result : ShapeResult)

/-- The `POST /circle` endpoint: pydantic model validation, then the
`calculate_circle` handler body. -/
noncomputable def calculate_circle (self : ShapesCalculator) (shape : Shapes) :
    Resp :=
  if shape.validationErrors = [] then
    match shape.radius with
    | none => .badRequest "Radius is required"
    | some r => .ok { area := some (self.circle_area r),
                      circumference := some (self.circle_circumference r) }
  else .unprocessable shape.validationErrors

/-- The `POST /rectangle` endpoint: pydantic model validation, then the
`calculate_rectangle` handler body. -/
noncomputable def calculate_rectangle (self : ShapesCalculator)
    (shape : Shapes) : Resp :=
  if shape.validationErrors = [] then
    match shape.length, shape.width with
    | some l, some w =>
        .ok { area := some (self.rectangle_area l w),
              perimeter := some (self.rectangle_perimeter l w) }
    | _, _ => .badRequest "Length and width are required"
  else .unprocessable shape.validationErrors

/-- The `POST /triangle` endpoint: pydantic model validation, then the
`calculate_triangle` handler body (which passes `base=shape.base,
height=shape.height` by keyword). -/
noncomputable def calculate_triangle (self : ShapesCalculator)
    (shape : Shapes) : Resp :=
  if shape.validationErrors = [] then
    match shape.base, shape.height with
    | some b, some h =>
        .ok { area := some (self.triangle_area h b) }
    | _, _ => .badRequest "Base and height are required"
  else .unprocessable shape.validationErrors

/-- The three supported shapes (the spec dispatch takes a shape tag). -/
inductive Shape where
  | circle
  | rectangle
  | triangle

/-- The routing table: a POST to the endpoint of `tag` runs the
corresponding handler. -/
noncomputable def dispatch (self : ShapesCalculator) : Shape → Shapes → Resp
  | .circle => calculate_circle self
  | .rectangle => calculate_rectangle self
  | .triangle => calculate_triangle self

/-- Required-field presence for each shape, as the handlers test it. -/
def requiredPresent : Shape → Shapes → Prop
  | .circle, s => s.radius.isSome
  | .rectangle, s => s.length.isSome ∧ s.width.isSome
  | .triangle, s => s.base.isSome ∧ s.height.isSome

/-- The exact key set of the result dictionary each shape is specified to
return. -/
def exactFields : Shape → ShapeResult → Prop
  | .circle, r => r.area.isSome ∧ r.circumference.isSome ∧ r.perimeter = none
  | .rectangle, r => r.area.isSome ∧ r.perimeter.isSome ∧ r.circumference = none
  | .triangle, r => r.area.isSome ∧ r.circumference = none ∧ r.perimeter = none

/-- Agreement of two requests on the fields the given shape reads. -/
def relevantEq : Shape → Shapes → Shapes → Prop
  | .circle, s₁, s₂ => s₁.radius = s₂.radius
  | .rectangle, s₁, s₂ => s₁.length = s₂.length ∧ s₁.width = s₂.width
  | .triangle, s₁, s₂ => s₁.base = s₂.base ∧ s₁.height = s₂.height

/-- Every present field is a strictly positive finite number. -/
def Shapes.allPositive (s : Shapes) : Prop :=
  ∀ p ∈ s.fields, ∀ v, p.2 = some v → ∃ x : ℝ, v = .finite x ∧ 0 < x

/-- Whether a response is a 200 with a result. -/
def Resp.isOk : Resp → Bool
  | .ok _ => true
  | _ => false

/-- A single invocation of a geometry-engine method: the method with its
arguments. -/
inductive EngineOp where
  | circleArea (radius : FVal)
  | circleCircumference (radius : FVal)
  | rectangleArea (length width : FVal)
  | rectanglePerimeter (length width : FVal)
  | triangleArea (height base : FVal)

/-- Big-step semantics of one engine method call on an instance: the method
bodies are single `return` statements of arithmetic on the arguments, so the
call yields the value and the instance state after the call.  None of the
bodies assigns to `self`, so the post-state is the pre-state. -/
noncomputable def invoke (c : ShapesCalculator) : EngineOp → FVal × ShapesCalculator
  | .circleArea r => (c.circle_area r, c)
  | .circleCircumference r => (c.circle_circumference r, c)
  | .rectangleArea l w => (c.rectangle_area l w, c)
  | .rectanglePerimeter l w => (c.rectangle_perimeter l w, c)
  | .triangleArea h b => (c.triangle_area h b, c)

/-- The largest finite IEEE-754 double, DBL_MAX = (2^53 - 1) * 2^971. -/
noncomputable def maxFloat : ℝ := (2 ^ 53 - 1) * 2 ^ 971

/-- Refinement of `FVal.sq` with the overflow behavior of CPython float
`**` on finite arguments: `x ** 2` raises OverflowError when the exact
square exceeds the largest finite double (unlike `*` and `+`, which overflow
silently to an infinity); on NaN and the infinities `**` raises nothing. -/
noncomputable def FVal.sqChecked : FVal → Except String FVal
  | .finite x =>
      if maxFloat < x * x then .error "OverflowError"
      else .ok (.finite (x * x))
  | .posInf => .ok .posInf
  | .negInf => .ok .posInf
  | .nan => .ok .nan

/-- `circle_area` with the OverflowError path of `radius ** 2` tracked: the
body `math.pi * (radius ** 2)` raises exactly when the squaring raises (the
outer multiplication overflows silently in CPython). -/
noncomputable def ShapesCalculator.circle_area_checked
    (_self : ShapesCalculator) (radius : FVal) : Except String FVal :=
  radius.sqChecked.map fun s => FVal.pi.mul s

/-- The `POST /circle` endpoint with the OverflowError path of the handler
try block tracked: an exception raised while building the result dictionary
is caught by `except Exception` and returned as the 500 response. -/
noncomputable def calculate_circle_checked (self : ShapesCalculator)
    (shape : Shapes) : Resp :=
  if shape.validationErrors = [] then
    match shape.radius with
    | none => .badRequest "Radius is required"
    | some r =>
        match self.circle_area_checked r with
        | .error e => .serverError e
        | .ok a => .ok { area := some a,
                         circumference := some (self.circle_circumference r) }
  else .unprocessable shape.validationErrors

/-- The routing table under the overflow-aware semantics.  The rectangle and
triangle handler bodies contain only `*` and `+`, which overflow silently in
CPython and raise nothing, so their checked semantics is the plain handler;
only the circle handler, whose body squares with `**`, has an error path. -/
noncomputable def dispatchChecked (self : ShapesCalculator) :
    Shape → Shapes → Resp
  | .circle => calculate_circle_checked self
  | .rectangle => calculate_rectangle self
  | .triangle => calculate_triangle self

/-- The application instance built in main.py. -/
def theCalc : ShapesCalculator :=
  { title := "Shapes Calculator",
    description := "A web application to calculate areas and perimeters of shapes",
    version := "1.0.0" }

/-! ### Evaluation lemmas for the validator -/

theorem leZero_finite_iff (x : ℝ) : (FVal.finite x).leZero ↔ x ≤ 0 := Iff.rfl

theorem not_leZero_nan : ¬ FVal.nan.leZero := fun h => h

theorem not_leZero_posInf : ¬ FVal.posInf.leZero := fun h => h

theorem checkField_none (name : String) : checkField name none = [] := rfl

theorem checkField_some_of_not (name : String) (v : FVal) (h : ¬ v.leZero) :
    checkField name (some v) = [] := by
  simp [checkField, value_must_be_positive, h]

theorem checkField_some_of_le (name : String) (v : FVal) (h : v.leZero) :
    checkField name (some v) = [name] := by
  simp [checkField, value_must_be_positive, h]

theorem checkField_finite_pos (name : String) (x : ℝ) (h : 0 < x) :
    checkField name (some (.finite x)) = [] :=
  checkField_some_of_not name _ (by simpa [FVal.leZero] using h.not_le)

theorem checkField_finite_nonpos (name : String) (x : ℝ) (h : x ≤ 0) :
    checkField name (some (.finite x)) = [name] :=
  checkField_some_of_le name _ (by simpa [FVal.leZero] using h)

theorem mem_validationErrors_of_bad (s : Shapes) (name : String) (v : FVal)
    (hmem : (name, some v) ∈ s.fields) (hbad : v.leZero) :
    name ∈ s.validationErrors := by
  simp only [Shapes.fields, List.mem_cons, List.not_mem_nil, or_false,
    Prod.mk.injEq] at hmem
  rcases hmem with ⟨h1, h2⟩ | ⟨h1, h2⟩ | ⟨h1, h2⟩ | ⟨h1, h2⟩ | ⟨h1, h2⟩ <;>
    subst h1 <;>
    simp [Shapes.validationErrors, ← h2, checkField_some_of_le _ _ hbad]

theorem validationErrors_eq_nil (s : Shapes) (h : s.allPositive) :
    s.validationErrors = [] := by
  have hf : ∀ name : String, ∀ o : Option FVal, (name, o) ∈ s.fields →
      checkField name o = [] := by
    intro name o hmem
    cases o with
    | none => exact checkField_none name
    | some v =>
      obtain ⟨x, hx, hxpos⟩ := h (name, some v) hmem v rfl
      subst hx
      exact checkField_finite_pos name x hxpos
  simp [Shapes.validationErrors,
    hf "radius" s.radius (by simp [Shapes.fields]),
    hf "base" s.base (by simp [Shapes.fields]),
    hf "height" s.height (by simp [Shapes.fields]),
    hf "length" s.length (by simp [Shapes.fields]),
    hf "width" s.width (by simp [Shapes.fields])]

/-! ### Evaluation lemmas for the geometry engine on finite values -/

theorem circle_area_finite (c : ShapesCalculator) (r : ℝ) :
    c.circle_area (.finite r) = .finite (Real.pi * r ^ 2) :=
  congrArg FVal.finite (by ring)

theorem circle_circumference_finite (c : ShapesCalculator) (r : ℝ) :
    c.circle_circumference (.finite r) = .finite (2 * Real.pi * r) := rfl

theorem rectangle_area_finite (c : ShapesCalculator) (l w : ℝ) :
    c.rectangle_area (.finite l) (.finite w) = .finite (l * w) := rfl

theorem rectangle_perimeter_finite (c : ShapesCalculator) (l w : ℝ) :
    c.rectangle_perimeter (.finite l) (.finite w) = .finite (2 * (l + w)) := rfl

theorem triangle_area_finite (c : ShapesCalculator) (h b : ℝ) :
    c.triangle_area (.finite h) (.finite b) = .finite (0.5 * b * h) :=
  congrArg FVal.finite (by rw [show (0.5 : ℝ) = 1 / 2 by norm_num]; ring)

/-! ### Inversion lemmas for the handlers -/

theorem calculate_circle_ok (c : ShapesCalculator) (s : Shapes)
    (r : ShapeResult) (h : calculate_circle c s = .ok r) :
    ∃ v, s.radius = some v ∧
      r = { area := some (c.circle_area v),
            circumference := some (c.circle_circumference v) } := by
  unfold calculate_circle at h
  by_cases hv : s.validationErrors = []
  · rw [if_pos hv] at h
    cases hrad : s.radius with
    | none => rw [hrad] at h; exact absurd h (by simp)
    | some v => rw [hrad] at h; simp at h; exact ⟨v, rfl, h.symm⟩
  · rw [if_neg hv] at h; exact absurd h (by simp)

theorem calculate_rectangle_ok (c : ShapesCalculator) (s : Shapes)
    (r : ShapeResult) (h : calculate_rectangle c s = .ok r) :
    ∃ l w, s.length = some l ∧ s.width = some w ∧
      r = { area := some (c.rectangle_area l w),
            perimeter := some (c.rectangle_perimeter l w) } := by
  unfold calculate_rectangle at h
  by_cases hv : s.validationErrors = []
  · rw [if_pos hv] at h
    cases hl : s.length with
    | none => rw [hl] at h; simp at h
    | some l =>
      cases hw : s.width with
      | none => rw [hl, hw] at h; simp at h
      | some w => rw [hl, hw] at h; simp at h; exact ⟨l, w, rfl, rfl, h.symm⟩
  · rw [if_neg hv] at h; exact absurd h (by simp)

theorem calculate_triangle_ok (c : ShapesCalculator) (s : Shapes)
    (r : ShapeResult) (h : calculate_triangle c s = .ok r) :
    ∃ b ht, s.base = some b ∧ s.height = some ht ∧
      r = { area := some (c.triangle_area ht b) } := by
  unfold calculate_triangle at h
  by_cases hv : s.validationErrors = []
  · rw [if_pos hv] at h
    cases hb : s.base with
    | none => rw [hb] at h; simp at h
    | some b =>
      cases hh : s.height with
      | none => rw [hb, hh] at h; simp at h
      | some ht => rw [hb, hh] at h; simp at h; exact ⟨b, ht, rfl, rfl, h.symm⟩
  · rw [if_neg hv] at h; exact absurd h (by simp)

/-! ### Claims -/

/-- Claim C1, counterexample: a circle request whose radius is NaN passes the
field validator (the Python test `v <= 0` is false for NaN), so the operation
does not fail with a validation error — it produces a ShapeResult (with NaN
entries), refuting the claim that a NaN field fails with InvalidFieldError. -/
theorem nan_passes_validation :
    calculate_circle theCalc { radius := some FVal.nan } =
      .ok { area := some FVal.nan, circumference := some FVal.nan } := rfl

/-- Claim C1 (amended): for every shape operation and every field present on
the input, if that field fails the float comparison value <= 0 (which holds
for every nonpositive finite value and for negative infinity, but not for NaN
or positive infinity), the operation fails with a validation error naming
that field and no ShapeResult is produced. -/
theorem invalid_field_rejected (c : ShapesCalculator) (s : Shapes)
    (name : String) (v : FVal) (hmem : (name, some v) ∈ s.fields)
    (hbad : v.leZero) :
    name ∈ s.validationErrors ∧
    calculate_circle c s = .unprocessable s.validationErrors ∧
    calculate_rectangle c s = .unprocessable s.validationErrors ∧
    calculate_triangle c s = .unprocessable s.validationErrors := by
  have hname := mem_validationErrors_of_bad s name v hmem hbad
  have hne : s.validationErrors ≠ [] := by
    intro hnil
    rw [hnil] at hname
    exact List.not_mem_nil name hname
  exact ⟨hname, by simp [calculate_circle, hne], by simp [calculate_rectangle, hne],
    by simp [calculate_triangle, hne]⟩

/-- Witness for C1 at the concrete input with radius -1. -/
theorem invalid_field_rejected_witness :
    "radius" ∈ ({ radius := some (FVal.finite (-1)) } : Shapes).validationErrors ∧
    calculate_circle theCalc { radius := some (FVal.finite (-1)) } =
      .unprocessable ({ radius := some (FVal.finite (-1)) } : Shapes).validationErrors ∧
    calculate_rectangle theCalc { radius := some (FVal.finite (-1)) } =
      .unprocessable ({ radius := some (FVal.finite (-1)) } : Shapes).validationErrors ∧
    calculate_triangle theCalc { radius := some (FVal.finite (-1)) } =
      .unprocessable ({ radius := some (FVal.finite (-1)) } : Shapes).validationErrors :=
  invalid_field_rejected theCalc _ "radius" (FVal.finite (-1))
    (by simp [Shapes.fields]) (by simp [FVal.leZero])

/-- Claim C2: for every radius strictly greater than zero, the circle
operation returns area pi times radius squared and circumference two pi
times radius. -/
theorem circle_formula (c : ShapesCalculator) (r : ℝ) (hr : 0 < r) :
    calculate_circle c { radius := some (.finite r) } =
      .ok { area := some (.finite (Real.pi * r ^ 2)),
            circumference := some (.finite (2 * Real.pi * r)) } := by
  have hval : ({ radius := some (.finite r) } : Shapes).validationErrors = [] := by
    simp [Shapes.validationErrors, checkField_none, checkField_finite_pos _ _ hr]
  simp [calculate_circle, hval, circle_area_finite, circle_circumference_finite]

/-- Witness for C2 at radius 2. -/
theorem circle_formula_witness :
    calculate_circle theCalc { radius := some (.finite 2) } =
      .ok { area := some (.finite (Real.pi * 2 ^ 2)),
            circumference := some (.finite (2 * Real.pi * 2)) } :=
  circle_formula theCalc 2 (by norm_num)

/-- Claim C3: for every length and width strictly greater than zero, the
rectangle operation returns area length times width and perimeter
2 times (length plus width). -/
theorem rectangle_formula (c : ShapesCalculator) (l w : ℝ) (hl : 0 < l)
    (hw : 0 < w) :
    calculate_rectangle c { length := some (.finite l), width := some (.finite w) } =
      .ok { area := some (.finite (l * w)),
            perimeter := some (.finite (2 * (l + w))) } := by
  have hval : ({ length := some (.finite l), width := some (.finite w) } :
      Shapes).validationErrors = [] := by
    simp [Shapes.validationErrors, checkField_none,
      checkField_finite_pos _ _ hl, checkField_finite_pos _ _ hw]
  simp [calculate_rectangle, hval, rectangle_area_finite, rectangle_perimeter_finite]

/-- Witness for C3 at length 3 and width 4: area 12, perimeter 14. -/
theorem rectangle_formula_witness :
    calculate_rectangle theCalc { length := some (.finite 3), width := some (.finite 4) } =
      .ok { area := some (.finite 12), perimeter := some (.finite 14) } := by
  have h := rectangle_formula theCalc 3 4 (by norm_num) (by norm_num)
  norm_num at h
  exact h

/-- Claim C4: for every base and height strictly greater than zero, the
triangle operation returns area 0.5 times base times height. -/
theorem triangle_formula (c : ShapesCalculator) (b h : ℝ) (hb : 0 < b)
    (hh : 0 < h) :
    calculate_triangle c { base := some (.finite b), height := some (.finite h) } =
      .ok { area := some (.finite (0.5 * b * h)) } := by
  have hval : ({ base := some (.finite b), height := some (.finite h) } :
      Shapes).validationErrors = [] := by
    simp [Shapes.validationErrors, checkField_none,
      checkField_finite_pos _ _ hb, checkField_finite_pos _ _ hh]
  simp [calculate_triangle, hval, triangle_area_finite]

/-- Witness for C4 at base 5 and height 10: area 25. -/
theorem triangle_formula_witness :
    calculate_triangle theCalc { base := some (.finite 5), height := some (.finite 10) } =
      .ok { area := some (.finite 25) } := by
  have h := triangle_formula theCalc 5 10 (by norm_num) (by norm_num)
  norm_num at h
  exact h

/-- Claim C5, counterexample: a circle request that lacks the radius field
but carries base -1 does not fail with the 400 detail string about the
radius; pydantic model validation rejects the base field first, so the
response is the 422 validation error naming base. -/
theorem missing_radius_counterexample :
    ({ base := some (FVal.finite (-1)) } : Shapes).radius = none ∧
    calculate_circle theCalc { base := some (FVal.finite (-1)) } =
      .unprocessable ["base"] ∧
    calculate_circle theCalc { base := some (FVal.finite (-1)) } ≠
      .badRequest "Radius is required" := by
  have hval : ({ base := some (FVal.finite (-1)) } : Shapes).validationErrors =
      ["base"] := by
    simp [Shapes.validationErrors, checkField_none,
      checkField_finite_nonpos _ _ (show (-1 : ℝ) ≤ 0 by norm_num)]
  have heq : calculate_circle theCalc { base := some (FVal.finite (-1)) } =
      .unprocessable ["base"] := by
    simp [calculate_circle, hval]
  exact ⟨rfl, heq, by rw [heq]; intro hcon; exact Resp.noConfusion hcon⟩

/-- Claim C5 (amended): for every circle request that lacks the radius field
and whose present fields all pass the positivity validator, the operation
fails with the 400 detail "Radius is required" and no result is produced. -/
theorem missing_radius_reported (c : ShapesCalculator) (s : Shapes)
    (hmiss : s.radius = none) (hok : s.validationErrors = []) :
    calculate_circle c s = .badRequest "Radius is required" := by
  simp [calculate_circle, hok, hmiss]

/-- Witness for C5 at the empty request body. -/
theorem missing_radius_reported_witness :
    calculate_circle theCalc {} = .badRequest "Radius is required" :=
  missing_radius_reported theCalc {} rfl
    (by simp [Shapes.validationErrors, checkField_none])

/-- Claim C6, counterexample: a triangle request missing both base and height
but carrying width -2 is answered with the 422 validation error naming width
(positivity), not with the 400 missing-field error, refuting the claim that
presence is validated before positivity. -/
theorem presence_order_counterexample :
    ({ width := some (FVal.finite (-2)) } : Shapes).base = none ∧
    ({ width := some (FVal.finite (-2)) } : Shapes).height = none ∧
    calculate_triangle theCalc { width := some (FVal.finite (-2)) } =
      .unprocessable ["width"] ∧
    calculate_triangle theCalc { width := some (FVal.finite (-2)) } ≠
      .badRequest "Base and height are required" := by
  have hval : ({ width := some (FVal.finite (-2)) } : Shapes).validationErrors =
      ["width"] := by
    simp [Shapes.validationErrors, checkField_none,
      checkField_finite_nonpos _ _ (show (-2 : ℝ) ≤ 0 by norm_num)]
  have heq : calculate_triangle theCalc { width := some (FVal.finite (-2)) } =
      .unprocessable ["width"] := by
    simp [calculate_triangle, hval]
  exact ⟨rfl, rfl, heq, by rw [heq]; intro hcon; exact Resp.noConfusion hcon⟩

/-- Claim C6 (amended): the pipeline validates positivity before
required-field presence — for every input that is missing a required field
for a shape and contains some present field violating positivity, the
reported failure is the validation (invalid-field) error, not the
missing-field error. -/
theorem positivity_precedes_presence (c : ShapesCalculator) (s : Shapes)
    (name : String) (v : FVal) (hmem : (name, some v) ∈ s.fields)
    (hbad : v.leZero) :
    (s.radius = none → calculate_circle c s = .unprocessable s.validationErrors) ∧
    ((s.length = none ∨ s.width = none) →
      calculate_rectangle c s = .unprocessable s.validationErrors) ∧
    ((s.base = none ∨ s.height = none) →
      calculate_triangle c s = .unprocessable s.validationErrors) := by
  have hname := mem_validationErrors_of_bad s name v hmem hbad
  have hne : s.validationErrors ≠ [] := by
    intro hnil
    rw [hnil] at hname
    exact List.not_mem_nil name hname
  exact ⟨fun _ => by simp [calculate_circle, hne],
    fun _ => by simp [calculate_rectangle, hne],
    fun _ => by simp [calculate_triangle, hne]⟩

/-- Witness for C6 at the request with only width -3 (every required field of
every shape missing, width violating positivity). -/
theorem positivity_precedes_presence_witness :
    calculate_circle theCalc { width := some (FVal.finite (-3)) } =
      .unprocessable ({ width := some (FVal.finite (-3)) } : Shapes).validationErrors ∧
    calculate_rectangle theCalc { width := some (FVal.finite (-3)) } =
      .unprocessable ({ width := some (FVal.finite (-3)) } : Shapes).validationErrors ∧
    calculate_triangle theCalc { width := some (FVal.finite (-3)) } =
      .unprocessable ({ width := some (FVal.finite (-3)) } : Shapes).validationErrors := by
  have h := positivity_precedes_presence theCalc
    { width := some (FVal.finite (-3)) } "width" (FVal.finite (-3))
    (by simp [Shapes.fields]) (by simp [FVal.leZero])
  exact ⟨h.1 rfl, h.2.1 (Or.inl rfl), h.2.2 (Or.inl rfl)⟩

/-- Claim C7: every successful response carries exactly the keys relevant to
the requested shape (circle: area and circumference; rectangle: area and
perimeter; triangle: area only) — never a partial result. -/
theorem result_exact_fields (c : ShapesCalculator) (tag : Shape) (s : Shapes)
    (r : ShapeResult) (h : dispatch c tag s = .ok r) : exactFields tag r := by
  cases tag with
  | circle =>
    obtain ⟨v, _, hr⟩ := calculate_circle_ok c s r h
    subst hr
    simp [exactFields]
  | rectangle =>
    obtain ⟨l, w, _, _, hr⟩ := calculate_rectangle_ok c s r h
    subst hr
    simp [exactFields]
  | triangle =>
    obtain ⟨b, ht, _, _, hr⟩ := calculate_triangle_ok c s r h
    subst hr
    simp [exactFields]

/-- Witness for C7 at the circle request with radius 1. -/
theorem result_exact_fields_witness :
    exactFields .circle
      { area := some (theCalc.circle_area (FVal.finite 1)),
        circumference := some (theCalc.circle_circumference (FVal.finite 1)) } :=
  result_exact_fields theCalc .circle { radius := some (FVal.finite 1) } _
    (by
      have hval : ({ radius := some (FVal.finite 1) } : Shapes).validationErrors = [] := by
        simp [Shapes.validationErrors, checkField_none,
          checkField_finite_pos _ _ (show (0 : ℝ) < 1 by norm_num)]
      simp [dispatch, calculate_circle, hval])

/-- Claim C8: each geometry-engine method is deterministic and
side-effect-free — its value does not depend on the instance it is invoked
on (so two invocations with the same arguments agree even across different
instances or different instance states), and the instance after the call is
the instance before it. -/
theorem engine_deterministic (c₁ c₂ : ShapesCalculator) (op : EngineOp) :
    (invoke c₁ op).1 = (invoke c₂ op).1 ∧
    (invoke c₁ op).2 = c₁ ∧ (invoke c₂ op).2 = c₂ := by
  cases op <;> exact ⟨rfl, rfl, rfl⟩

/-- Claim C9, counterexample: radius 10^155 is finite and strictly positive,
so it passes validation and the presence check, yet its square exceeds the
largest finite double, so `radius ** 2` raises OverflowError in CPython and
the except branch of the circle handler returns the 500 internal error — the
internal-error branch is reachable on validated input. -/
theorem overflow_reaches_500 :
    ({ radius := some (FVal.finite (10 ^ 155)) } : Shapes).allPositive ∧
    requiredPresent .circle { radius := some (FVal.finite (10 ^ 155)) } ∧
    dispatchChecked theCalc .circle { radius := some (FVal.finite (10 ^ 155)) } =
      .serverError "OverflowError" := by
  refine ⟨?_, ?_, ?_⟩
  · intro p hp v hv
    simp only [Shapes.fields, List.mem_cons, List.not_mem_nil, or_false] at hp
    rcases hp with h | h | h | h | h <;> subst h <;> simp only [] at hv
    · exact ⟨10 ^ 155, (Option.some_injective _ hv).symm, by positivity⟩
    all_goals exact Option.noConfusion hv
  · simp [requiredPresent]
  · have hval : ({ radius := some (FVal.finite (10 ^ 155)) } :
        Shapes).validationErrors = [] := by
      simp [Shapes.validationErrors, checkField_none,
        checkField_finite_pos _ _ (show (0 : ℝ) < 10 ^ 155 by positivity)]
    have hover : maxFloat < (10 ^ 155 : ℝ) * 10 ^ 155 := by
      rw [maxFloat]
      norm_num
    simp [dispatchChecked, calculate_circle_checked, hval,
      ShapesCalculator.circle_area_checked, FVal.sqChecked, hover, Except.map]

/-- Claim C9 (amended): for every input that passes validation (all required
fields of the shape present, every present field a strictly positive finite
number), the rectangle and triangle operations return a 200 result, and the
circle operation does too provided the square of the radius does not exceed
the largest finite double; when it does, the OverflowError raised by
`radius ** 2` is caught and returned as the 500 internal error, so the
internal-error branch is reachable for circle. -/
theorem valid_input_yields_result_unless_overflow (c : ShapesCalculator)
    (tag : Shape) (s : Shapes) (hpos : s.allPositive)
    (hreq : requiredPresent tag s)
    (hsq : ∀ x : ℝ, tag = Shape.circle → s.radius = some (.finite x) →
      x * x ≤ maxFloat) :
    (dispatchChecked c tag s).isOk = true := by
  have hval := validationErrors_eq_nil s hpos
  cases tag with
  | circle =>
    obtain ⟨v, hv⟩ := Option.isSome_iff_exists.mp hreq
    obtain ⟨x, hx, hxpos⟩ := hpos ("radius", s.radius)
      (by simp [Shapes.fields]) v hv
    subst hx
    have hle : ¬ maxFloat < x * x := not_lt.mpr (hsq x rfl hv)
    have hsqok : FVal.sqChecked (.finite x) = .ok (.finite (x * x)) := by
      simp [FVal.sqChecked, hle]
    simp [dispatchChecked, calculate_circle_checked, hval, hv,
      ShapesCalculator.circle_area_checked, hsqok, Except.map, Resp.isOk]
  | rectangle =>
    obtain ⟨hl, hw⟩ := hreq
    obtain ⟨lv, hlv⟩ := Option.isSome_iff_exists.mp hl
    obtain ⟨wv, hwv⟩ := Option.isSome_iff_exists.mp hw
    simp [dispatchChecked, calculate_rectangle, hval, hlv, hwv, Resp.isOk]
  | triangle =>
    obtain ⟨hb, hh⟩ := hreq
    obtain ⟨bv, hbv⟩ := Option.isSome_iff_exists.mp hb
    obtain ⟨hv, hhv⟩ := Option.isSome_iff_exists.mp hh
    simp [dispatchChecked, calculate_triangle, hval, hbv, hhv, Resp.isOk]

/-- Witness for C9 (amended) at the circle request with radius 1. -/
theorem valid_input_yields_result_unless_overflow_witness :
    (dispatchChecked theCalc .circle { radius := some (FVal.finite 1) }).isOk =
      true :=
  valid_input_yields_result_unless_overflow theCalc .circle
    { radius := some (FVal.finite 1) }
    (by
      intro p hp v hv
      simp only [Shapes.fields, List.mem_cons, List.not_mem_nil, or_false] at hp
      rcases hp with h | h | h | h | h <;> subst h <;> simp only [] at hv
      · exact ⟨1, (Option.some_injective _ hv).symm, one_pos⟩
      all_goals exact Option.noConfusion hv)
    (by simp [requiredPresent])
    (by
      intro x _ hx
      have hfin : FVal.finite 1 = FVal.finite x := Option.some_injective _ hx
      have h1 : (1 : ℝ) = x := by injection hfin
      rw [← h1, maxFloat]
      norm_num)

/-- Claim C10: each shape operation reads only its own required fields — two
requests that pass validation and agree on the fields the shape reads get
identical responses, whatever their other fields are. -/
theorem result_depends_only_on_required (c : ShapesCalculator) (tag : Shape)
    (s₁ s₂ : Shapes) (h₁ : s₁.validationErrors = [])
    (h₂ : s₂.validationErrors = []) (hrel : relevantEq tag s₁ s₂) :
    dispatch c tag s₁ = dispatch c tag s₂ := by
  cases tag with
  | circle =>
    simp only [relevantEq] at hrel
    simp only [dispatch]
    unfold calculate_circle
    rw [h₁, h₂, if_pos rfl, if_pos rfl, hrel]
  | rectangle =>
    obtain ⟨hl, hw⟩ := hrel
    simp only [dispatch]
    unfold calculate_rectangle
    rw [h₁, h₂, if_pos rfl, if_pos rfl, hl, hw]
  | triangle =>
    obtain ⟨hb, hh⟩ := hrel
    simp only [dispatch]
    unfold calculate_triangle
    rw [h₁, h₂, if_pos rfl, if_pos rfl, hb, hh]

/-- Witness for C10: two circle requests with the same radius 2, the second
also carrying width 7, get the same response. -/
theorem result_depends_only_on_required_witness :
    dispatch theCalc .circle { radius := some (FVal.finite 2) } =
      dispatch theCalc .circle
        { radius := some (FVal.finite 2), width := some (FVal.finite 7) } :=
  result_depends_only_on_required theCalc .circle _ _
    (by simp [Shapes.validationErrors, checkField_none,
      checkField_finite_pos _ _ (show (0 : ℝ) < 2 by norm_num)])
    (by simp [Shapes.validationErrors, checkField_none,
      checkField_finite_pos _ _ (show (0 : ℝ) < 2 by norm_num),
      checkField_finite_pos _ _ (show (0 : ℝ) < 7 by norm_num)])
    rfl

end ShapesService
